import Mathlib

/-!
Shallow embedding of the smart-energy-meter backend core
(`app.py` ingestion handler, `database.py` store) and proofs about it.

Modelling conventions:
* Python floats that only ever flow through parse + order comparisons are
  modelled by `FloatVal`: exact rationals for the finite values, plus the
  non-finite values "inf", "-inf" and "nan" that `float()` also parses, with
  IEEE comparison semantics (comparisons with NaN are false).
* SQLite TEXT comparison (BINARY collation) is modelled by `charListLe`
  on the code points of the string, which agrees with byte order on the
  ISO-8601 / ASCII strings the store writes.
* The server clock (`datetime.now().isoformat()`) is passed in explicitly
  as a `String` parameter wherever the source reads it.
* Fallible store operations take an `Option String` failure-injection
  parameter standing for an underlying sqlite3 exception with its message;
  `none` is the no-failure run.
-/

namespace MeterBackend

/-! ### String machinery (SQLite BINARY collation, Python `str.lower`/`in`) -/

/-- Byte-order comparison of two code-point lists: `charListLe a b` is true iff
`a ≤ b` in the lexicographic order SQLite uses for TEXT values. -/
def charListLe : List Char → List Char → Bool
  | [], _ => true
  | _ :: _, [] => false
  | a :: as, b :: bs =>
    if a.toNat < b.toNat then true
    else if b.toNat < a.toNat then false
    else charListLe as bs

/-- Lexicographic order on strings via their character lists. -/
def strLe (a b : String) : Bool := charListLe a.data b.data

/-- ASCII case folding of one character code, as Python `str.lower` acts on the
device-identifier alphabet appearing in this backend. -/
def lowerCode (c : Char) : Nat :=
  if 65 ≤ c.toNat ∧ c.toNat ≤ 90 then c.toNat + 32 else c.toNat

/-- Test whether the first list is a prefix of the second. -/
def listHasPfx : List Nat → List Nat → Bool
  | [], _ => true
  | _ :: _, [] => false
  | a :: as, b :: bs => (a == b) && listHasPfx as bs

/-- Substring test: Python `pat in s` on code lists. -/
def listHasSub (pat : List Nat) : List Nat → Bool
  | [] => listHasPfx pat []
  | b :: bs => listHasPfx pat (b :: bs) || listHasSub pat bs

/-- app.py line 64: `if source and 'boot' in source.lower()`. The submission is a
boot notification iff `source` is non-empty and contains "boot" in any case. -/
def containsBoot (source : String) : Bool :=
  source != "" && listHasSub ("boot".data.map lowerCode) (source.data.map lowerCode)

/-- SQLite `date(received_at)` on the ISO-8601 strings the store writes:
the first ten characters `YYYY-MM-DD`. -/
def dateOf (ts : String) : List Char := ts.data.take 10

/-! ### Validator (app.py `receive_meter_data`, lines 77-147) -/

/-- Value domain of a parsed Python float in this backend: finite values as
exact rationals, plus the non-finite values `float()` also accepts from text
("inf", "-inf", "nan" and case variants). -/
inductive FloatVal
  | finite (q : ℚ)
  | posInf
  | negInf
  | nan
deriving Repr, DecidableEq

/-- IEEE test `x < q` against a finite constant: false whenever `x` is NaN. -/
def FloatVal.ltQ : FloatVal → ℚ → Bool
  | .finite x, q => decide (x < q)
  | .posInf, _ => false
  | .negInf, _ => true
  | .nan, _ => false

/-- IEEE test `x > q` against a finite constant: false whenever `x` is NaN. -/
def FloatVal.gtQ : FloatVal → ℚ → Bool
  | .finite x, q => decide (q < x)
  | .posInf, _ => true
  | .negInf, _ => false
  | .nan, _ => false

/-- IEEE test `x ≥ q` (false on NaN), the left half of membership in an
inclusive range. -/
def FloatVal.geQ : FloatVal → ℚ → Bool
  | .finite x, q => decide (q ≤ x)
  | .posInf, _ => true
  | .negInf, _ => false
  | .nan, _ => false

/-- IEEE test `x ≤ q` (false on NaN), the right half of membership in an
inclusive range. -/
def FloatVal.leQ : FloatVal → ℚ → Bool
  | .finite x, q => decide (x ≤ q)
  | .posInf, _ => false
  | .negInf, _ => true
  | .nan, _ => false

/-- Raw value of one numeric HTTP parameter as the Flask handler sees it.
`missing` is an absent key, `empty` a present-but-empty string (both are falsy
in Python), `junk s` a non-empty string on which `float()` raises `ValueError`,
and `num x` a non-empty string `float()` parses to the value `x` (which may be
one of the non-finite floats "inf", "-inf", "nan"). -/
inductive RawVal
  | missing
  | empty
  | junk (s : String)
  | num (x : FloatVal)
deriving Repr, DecidableEq

/-- Python truthiness of the raw parameter: `None` and `""` are falsy. -/
def RawVal.falsy : RawVal → Bool
  | .missing => true
  | .empty => true
  | _ => false

/-- Raw value of the integer `r` parameter; `num n` is a string `int()` parses. -/
inductive RawInt
  | missing
  | empty
  | junk (s : String)
  | num (n : ℤ)
deriving Repr, DecidableEq

/-- Content of one `ValueError` raised in the validation block: which field
failed and whether it was a parse failure or a range failure, with the value. -/
inductive FieldErr
  | parseFail (field : String) (raw : String)
  | outOfRange (field : String) (value : FloatVal)
deriving Repr, DecidableEq

/-- Name of the single field a validation error talks about. -/
def FieldErr.fieldName : FieldErr → String
  | .parseFail f _ => f
  | .outOfRange f _ => f

/-- Optional-float validation against an inclusive range, the pattern
`x_val = float(x) if x else None` + `if x_val is not None and (x_val < lo or
x_val > hi): raise ValueError(...)` of app.py lines 106-135, with the IEEE
comparison semantics of the Python originals (both comparisons are false on
NaN, so NaN slips through every range check). -/
def checkRange (field : String) (lo hi : ℚ) : RawVal → Except FieldErr (Option FloatVal)
  | .missing => .ok none
  | .empty => .ok none
  | .junk s => .error (.parseFail field s)
  | .num x => if x.ltQ lo || x.gtQ hi then .error (.outOfRange field x) else .ok (some x)

/-- Optional-float validation with only a lower bound (`load_kw`, `kwh`). -/
def checkMin (field : String) (lo : ℚ) : RawVal → Except FieldErr (Option FloatVal)
  | .missing => .ok none
  | .empty => .ok none
  | .junk s => .error (.parseFail field s)
  | .num x => if x.ltQ lo then .error (.outOfRange field x) else .ok (some x)

/-- app.py lines 107-110: voltage must lie in [0, 500]. -/
def checkVoltage : RawVal → Except FieldErr (Option FloatVal) := checkRange "voltage" 0 500

/-- app.py lines 112-115: current must lie in [0, 1000]. -/
def checkCurrent : RawVal → Except FieldErr (Option FloatVal) := checkRange "current" 0 1000

/-- app.py lines 117-120: power factor must lie in [0, 1]. -/
def checkPowerFactor : RawVal → Except FieldErr (Option FloatVal) :=
  checkRange "power_factor" 0 1

/-- app.py lines 122-125: load must be non-negative. -/
def checkLoad : RawVal → Except FieldErr (Option FloatVal) := checkMin "load_kw" 0

/-- app.py lines 127-130: kWh must be non-negative. -/
def checkKwh : RawVal → Except FieldErr (Option FloatVal) := checkMin "kwh" 0

/-- app.py lines 132-135: frequency must lie in [45, 65]. -/
def checkFrequency : RawVal → Except FieldErr (Option FloatVal) := checkRange "frequency" 45 65

/-- app.py line 138: `retry_val = int(retry_count) if retry_count else 0`; the
absent parameter defaults to the string "0", so both falsy cases yield 0. -/
def checkRetry : RawInt → Except FieldErr ℤ
  | .missing => .ok 0
  | .empty => .ok 0
  | .junk s => .error (.parseFail "retry_count" s)
  | .num n => .ok n

/-- Raw parameters of one `/meter` submission, after the `params.get` calls of
app.py lines 50-58 (`r` defaults to "0", `s` to ""). -/
structure Params where
  v : RawVal
  c : RawVal
  pf : RawVal
  l : RawVal
  k : RawVal
  f : RawVal
  d : Option String
  r : RawInt
  s : String
deriving Repr, DecidableEq

/-- Values bound by the validation block when it succeeds. -/
structure ParsedVals where
  volt_val : Option FloatVal
  curr_val : Option FloatVal
  pf_val : Option FloatVal
  load_val : Option FloatVal
  kwh_val : Option FloatVal
  freq_val : Option FloatVal
  retry_val : ℤ
deriving Repr, DecidableEq

/-- The try-block of app.py lines 106-138: the checks run in source order and
the first `ValueError` aborts the block. -/
def validateNumbers (p : Params) : Except FieldErr ParsedVals :=
  match checkVoltage p.v with
  | .error e => .error e
  | .ok vv =>
    match checkCurrent p.c with
    | .error e => .error e
    | .ok cv =>
      match checkPowerFactor p.pf with
      | .error e => .error e
      | .ok pv =>
        match checkLoad p.l with
        | .error e => .error e
        | .ok lv =>
          match checkKwh p.k with
          | .error e => .error e
          | .ok kv =>
            match checkFrequency p.f with
            | .error e => .error e
            | .ok fv =>
              match checkRetry p.r with
              | .error e => .error e
              | .ok rv => .ok ⟨vv, cv, pv, lv, kv, fv, rv⟩

/-- app.py lines 78-81: the required-field scan collects every missing field
name before rejecting. -/
def missingFieldsOf (p : Params) : List String :=
  (if p.v.falsy then ["v (voltage)"] else []) ++
  (if p.c.falsy then ["c (current)"] else []) ++
  (if p.k.falsy then ["k (kWh)"] else [])

/-! ### Store data model (database.py `init_database`, lines 17-86) -/

/-- One row of `meter_readings`. -/
structure Reading where
  id : ℕ
  voltage : Option FloatVal
  current : Option FloatVal
  power_factor : Option FloatVal
  load_kw : Option FloatVal
  kwh : Option FloatVal
  frequency : Option FloatVal
  datetime_str : Option String
  retry_count : ℤ
  source : String
  received_at : String
deriving Repr, DecidableEq

/-- One row of `device_status` (UNIQUE(source); boot_count and error_count
DEFAULT 0). -/
structure DeviceStatus where
  source : String
  last_seen : String
  status : String
  boot_count : ℤ
  error_count : ℤ
deriving Repr, DecidableEq

/-- Persistent state: the `meter_readings` table together with the AUTOINCREMENT
counter (`nextId` is the id the next insert will receive) and the
`device_status` table, which holds at most one row per source. -/
structure DB where
  readings : List Reading
  nextId : ℕ
  deviceStatus : List DeviceStatus
deriving Repr, DecidableEq

/-- Fresh database right after `init_database`: AUTOINCREMENT ids start at 1. -/
def emptyDB : DB := ⟨[], 1, []⟩

/-- Row of `device_status` for a given source, if any. -/
def lookupStatus (db : DB) (source : String) : Option DeviceStatus :=
  db.deviceStatus.find? (fun d => d.source == source)

/-- Effect of `INSERT OR REPLACE` on `device_status`: the UNIQUE(source)
conflict row, if any, is deleted and the new row inserted. -/
def replaceStatus (l : List DeviceStatus) (row : DeviceStatus) : List DeviceStatus :=
  (l.filter (fun d => d.source != row.source)) ++ [row]

/-! ### Store operations -/

/-- database.py `insert_reading` (lines 88-127): stamps `received_at`, appends
one `meter_readings` row, then runs
`INSERT OR REPLACE INTO device_status (source, last_seen, status, error_count)
VALUES (?, ?, 'online', COALESCE((SELECT error_count ...), 0))`.
The column list names `source, last_seen, status, error_count` only, so the
replacing row takes the schema DEFAULT 0 for `boot_count`, while `error_count`
is carried over by the COALESCE subquery. Returns `lastrowid`. -/
def insert_reading (db : DB) (voltage current power_factor load_kw kwh frequency : Option FloatVal)
    (datetime_str : Option String) (retry_count : ℤ) (source : String)
    (received_at : String) : ℕ × DB :=
  let id := db.nextId
  let row : Reading := ⟨id, voltage, current, power_factor, load_kw, kwh, frequency,
    datetime_str, retry_count, source, received_at⟩
  let oldErr := ((lookupStatus db source).map DeviceStatus.error_count).getD 0
  let statusRow : DeviceStatus := ⟨source, received_at, "online", 0, oldErr⟩
  (id, ⟨db.readings ++ [row], id + 1, replaceStatus db.deviceStatus statusRow⟩)

/-- database.py `update_device_status` (lines 307-330): read the current
counters, apply the requested increments (base 0 when no row exists), and
replace the row with `last_seen` refreshed to the current server time. -/
def update_device_status (db : DB) (source status : String)
    (increment_boot increment_error : Bool) (now : String) : DB :=
  let old := lookupStatus db source
  let boot_count := ((old.map DeviceStatus.boot_count).getD 0) +
    (if increment_boot then 1 else 0)
  let error_count := ((old.map DeviceStatus.error_count).getD 0) +
    (if increment_error then 1 else 0)
  ⟨db.readings, db.nextId,
    replaceStatus db.deviceStatus ⟨source, now, status, boot_count, error_count⟩⟩

/-- Descending `received_at` order used by `ORDER BY received_at DESC`. -/
def recvDesc (a b : Reading) : Prop := strLe b.received_at a.received_at = true

instance : DecidableRel recvDesc := fun a b => inferInstanceAs (Decidable (_ = true))

/-- Ascending `received_at` order used by `ORDER BY received_at ASC`. -/
def recvAsc (a b : Reading) : Prop := strLe a.received_at b.received_at = true

instance : DecidableRel recvAsc := fun a b => inferInstanceAs (Decidable (_ = true))

/-- database.py lines 141-143: the source filter is added only when `source` is
truthy and differs from the sentinel "All". -/
def sourceFilter (source : Option String) (r : Reading) : Bool :=
  match source with
  | some s => if s != "" && s != "All" then r.source == s else true
  | none => true

/-- database.py lines 145-147: `date(received_at) >= start_date`, added only
when `start_date` is truthy. -/
def startDateFilter (start_date : Option String) (r : Reading) : Bool :=
  match start_date with
  | some s => if s != "" then charListLe s.data (dateOf r.received_at) else true
  | none => true

/-- database.py lines 149-151: `date(received_at) <= end_date`, added only when
`end_date` is truthy. -/
def endDateFilter (end_date : Option String) (r : Reading) : Bool :=
  match end_date with
  | some s => if s != "" then charListLe (dateOf r.received_at) s.data else true
  | none => true

/-- Conjunction of the three optional WHERE clauses of `get_readings`. -/
def matchesFilters (source start_date end_date : Option String) (r : Reading) : Bool :=
  sourceFilter source r && startDateFilter start_date r && endDateFilter end_date r

/-- SQLite `LIMIT ?` semantics: a negative limit disables the cap. -/
def sqlLimit (limit : ℤ) (l : List Reading) : List Reading :=
  if limit < 0 then l else l.take limit.toNat

/-- database.py `get_readings` (lines 129-163): conjunctive optional filters,
`ORDER BY received_at DESC LIMIT ?`. The sort is modelled by insertion sort on
the `received_at` key, a key-sorted permutation as ORDER BY guarantees. -/
def get_readings (db : DB) (source : Option String) (limit : ℤ)
    (start_date end_date : Option String) : List Reading :=
  sqlLimit limit
    (List.insertionSort recvDesc
      (db.readings.filter (matchesFilters source start_date end_date)))

/-- database.py `get_readings_by_date_range` (lines 261-288):
`date(received_at) BETWEEN ? AND ?` (inclusive bounds), optional source filter
with the same sentinel rule, `ORDER BY received_at ASC`, no LIMIT. -/
def get_readings_by_date_range (db : DB) (start_date end_date : String)
    (source : Option String) : List Reading :=
  List.insertionSort recvAsc
    (db.readings.filter (fun r =>
      (charListLe start_date.data (dateOf r.received_at) &&
       charListLe (dateOf r.received_at) end_date.data) &&
      sourceFilter source r))

/-! ### Statistics (database.py `get_statistics`, lines 180-237) -/

/-- Round-half-to-even on rationals, the behaviour of Python `round`. -/
def roundHalfEven (q : ℚ) : ℤ :=
  let f := q.floor
  let r := q - f
  if r < 1/2 then f else if 1/2 < r then f + 1 else if f % 2 = 0 then f else f + 1

/-- Python `round(x, 2)`. -/
def round2 (q : ℚ) : ℚ := (roundHalfEven (q * 100) : ℚ) / 100

/-- Maximum `received_at` over the stored readings (`SELECT MAX(received_at)`),
`none` on an empty table. -/
def maxReceived (l : List Reading) : Option String :=
  l.foldl (fun acc r =>
    match acc with
    | none => some r.received_at
    | some m => some (if strLe m r.received_at then r.received_at else m)) none

/-- Reading counts grouped by source (`GROUP BY source`). -/
def sourceCounts (l : List Reading) : List (String × ℕ) :=
  ((l.map Reading.source).dedup).map
    (fun s => (s, (l.filter (fun r => r.source == s)).length))

/-- Result dictionary of a successful `get_statistics` call. -/
structure Stats where
  total_readings : ℕ
  sources : List (String × ℕ)
  last_24h_readings : ℕ
  latest_timestamp : Option String
  avg_readings_per_hour : ℚ
  device_statuses : List (String × String × String)
  database_size_bytes : ℕ
  database_size_mb : ℚ
deriving Repr, DecidableEq

/-- Happy-path body of `get_statistics`; `cutoff` is the ISO string SQLite
computes for `datetime('now', '-1 day')` and `db_size` the file size reported
by the pragmas. -/
def get_statistics_pure (db : DB) (cutoff : String) (db_size : ℕ) : Stats :=
  let last24 := (db.readings.filter (fun r => strLe cutoff r.received_at)).length
  { total_readings := db.readings.length
  , sources := sourceCounts db.readings
  , last_24h_readings := last24
  , latest_timestamp := maxReceived db.readings
  , avg_readings_per_hour := if 0 < last24 then round2 ((last24 : ℚ) / 24) else 0
  , device_statuses := db.deviceStatus.map (fun d => (d.source, d.status, d.last_seen))
  , database_size_bytes := db_size
  , database_size_mb := round2 ((db_size : ℚ) / (1024 * 1024)) }

/-! ### Store operations as fallible calls (error-handling surface) -/

/-- database.py `insert_reading` seen as a fallible operation: the except
branch logs and re-raises, so an underlying failure reaches the caller as an
error carrying the exception message. -/
def insert_reading_op (db : DB)
    (voltage current power_factor load_kw kwh frequency : Option FloatVal)
    (datetime_str : Option String) (retry_count : ℤ) (source : String)
    (received_at : String) (ioFailure : Option String) : Except String (ℕ × DB) :=
  match ioFailure with
  | some msg => .error msg
  | none => .ok (insert_reading db voltage current power_factor load_kw kwh frequency
      datetime_str retry_count source received_at)

/-- database.py `get_statistics` (lines 180-237) as a fallible operation: the
except branch (lines 235-237) logs and `return {}`, so an underlying failure
is converted into the ordinary empty-dictionary success value, modelled as
`Except.ok none`. -/
def get_statistics_op (db : DB) (cutoff : String) (db_size : ℕ)
    (ioFailure : Option String) : Except String (Option Stats) :=
  match ioFailure with
  | some _ => .ok none
  | none => .ok (some (get_statistics_pure db cutoff db_size))

/-- database.py `update_device_status` (lines 307-330) as a fallible operation:
the except branch (lines 329-330) only logs, so an underlying failure leaves
the store untouched and the call returns normally, modelled as `Except.ok db`
with the input state. -/
def update_device_status_op (db : DB) (source status : String)
    (increment_boot increment_error : Bool) (now : String)
    (ioFailure : Option String) : Except String DB :=
  match ioFailure with
  | some _ => .ok db
  | none => .ok (update_device_status db source status increment_boot increment_error now)

/-- database.py `get_readings` as a fallible operation: the except branch
(lines 165-167) logs and re-raises, so an underlying failure reaches the
caller as an error carrying the exception message. -/
def get_readings_op (db : DB) (source : Option String) (limit : ℤ)
    (start_date end_date : Option String) (ioFailure : Option String) :
    Except String (List Reading) :=
  match ioFailure with
  | some msg => .error msg
  | none => .ok (get_readings db source limit start_date end_date)

/-- database.py `get_readings_by_date_range` as a fallible operation: the
except branch (lines 286-288) logs and re-raises. -/
def get_readings_by_date_range_op (db : DB) (start_date end_date : String)
    (source : Option String) (ioFailure : Option String) :
    Except String (List Reading) :=
  match ioFailure with
  | some msg => .error msg
  | none => .ok (get_readings_by_date_range db start_date end_date source)

/-- database.py `cleanup_old_data` (lines 239-259) happy path: deletes every
reading whose received_at is older than the retention cutoff (the ISO string
SQLite computes for `datetime('now', '-N days')`) and returns the deleted row
count together with the new state. -/
def cleanup_old_data (db : DB) (cutoff : String) : ℕ × DB :=
  ((db.readings.filter (fun r => !(strLe cutoff r.received_at))).length,
   ⟨db.readings.filter (fun r => strLe cutoff r.received_at), db.nextId, db.deviceStatus⟩)

/-- database.py `cleanup_old_data` as a fallible operation: the except branch
(lines 257-259) logs and re-raises. -/
def cleanup_old_data_op (db : DB) (cutoff : String) (ioFailure : Option String) :
    Except String (ℕ × DB) :=
  match ioFailure with
  | some msg => .error msg
  | none => .ok (cleanup_old_data db cutoff)

/-- database.py `backup_database` (lines 345-357) happy path: the backup
written at the destination is a point-in-time copy of the whole store. -/
def backup_database (db : DB) : DB := db

/-- database.py `backup_database` as a fallible operation: the except branch
(lines 355-357) logs and re-raises. -/
def backup_database_op (db : DB) (ioFailure : Option String) : Except String DB :=
  match ioFailure with
  | some msg => .error msg
  | none => .ok (backup_database db)

/-! ### Ingestion service (app.py `receive_meter_data`, lines 32-187) -/

/-- Outcome of one `/meter` submission, the JSON result of the handler. -/
inductive SubmitResult
  | bootAck
  | missingFields (fields : List String)
  | invalidData (e : FieldErr)
  | ok (id : ℕ)
deriving Repr, DecidableEq

/-- Whether the outcome is a 400 validation rejection. -/
def SubmitResult.isRejection : SubmitResult → Bool
  | .missingFields _ => true
  | .invalidData _ => true
  | _ => false

/-- app.py `receive_meter_data` on a healthy store, as a state transformer:
boot short-circuit (lines 64-75, replying without touching the store), the
required-field scan (lines 77-86), the numeric validation block (lines
106-147), and on success the `insert_reading` call (lines 150-161). `now` is
the server clock value `insert_reading` stamps into `received_at`. -/
def receive_meter_data (p : Params) (now : String) (db : DB) : SubmitResult × DB :=
  if containsBoot p.s then
    (.bootAck, db)
  else
    let missing := missingFieldsOf p
    if missing ≠ [] then
      (.missingFields missing, db)
    else
      match validateNumbers p with
      | .error e => (.invalidData e, db)
      | .ok vals =>
        let res := insert_reading db vals.volt_val vals.curr_val vals.pf_val
          vals.load_val vals.kwh_val vals.freq_val p.d vals.retry_val p.s now
        (.ok res.1, res.2)

/-- app.py `export_data` (lines 217-238): the export endpoint fetches its rows
through `get_readings` with the default limit (1000), not through
`get_readings_by_date_range`. -/
def export_data (db : DB) (source start_date end_date : Option String) : List Reading :=
  get_readings db source 1000 start_date end_date

/-- First `ValueError` (if any) a single field check would raise. -/
def errOf {α : Type} : Except FieldErr α → Option FieldErr
  | .error e => some e
  | .ok _ => none

/-- Errors of the individual field checks, in the fixed source order of the
validation block: voltage, current, power_factor, load_kw, kwh, frequency,
retry_count. -/
def fieldErrors (p : Params) : List FieldErr :=
  (errOf (checkVoltage p.v) :: errOf (checkCurrent p.c) :: errOf (checkPowerFactor p.pf) ::
   errOf (checkLoad p.l) :: errOf (checkKwh p.k) :: errOf (checkFrequency p.f) ::
   [errOf (checkRetry p.r)]).reduceOption

/-! ### Order lemmas for the `received_at` comparisons -/

theorem charListLe_cons (a b : Char) (as bs : List Char) :
    charListLe (a :: as) (b :: bs) = true ↔
      a.toNat < b.toNat ∨ (a.toNat = b.toNat ∧ charListLe as bs = true) := by
  simp only [charListLe]
  split_ifs with h1 h2
  · simp [h1]
  · constructor
    · intro h; cases h
    · intro h
      rcases h with h | ⟨h, _⟩
      · omega
      · omega
  · have heq : a.toNat = b.toNat := by omega
    constructor
    · intro h; exact Or.inr ⟨heq, h⟩
    · intro h
      rcases h with h | ⟨_, h⟩
      · omega
      · exact h

theorem charListLe_total : ∀ as bs, charListLe as bs = true ∨ charListLe bs as = true := by
  intro as
  induction as with
  | nil => intro bs; left; rfl
  | cons a as ih =>
    intro bs
    cases bs with
    | nil => right; rfl
    | cons b bs =>
      rw [charListLe_cons, charListLe_cons]
      rcases Nat.lt_trichotomy a.toNat b.toNat with h | h | h
      · left; exact Or.inl h
      · rcases ih bs with h3 | h3
        · left; exact Or.inr ⟨h, h3⟩
        · right; exact Or.inr ⟨h.symm, h3⟩
      · right; exact Or.inl h

theorem charListLe_trans : ∀ as bs cs, charListLe as bs = true → charListLe bs cs = true →
    charListLe as cs = true := by
  intro as
  induction as with
  | nil => intro bs cs _ _; rfl
  | cons a as ih =>
    intro bs cs h1 h2
    cases bs with
    | nil => simp [charListLe] at h1
    | cons b bs =>
      cases cs with
      | nil => simp [charListLe] at h2
      | cons c cs =>
        rw [charListLe_cons] at h1 h2 ⊢
        rcases h1 with h1 | ⟨h1e, h1r⟩
        · rcases h2 with h2 | ⟨h2e, _⟩
          · exact Or.inl (Nat.lt_trans h1 h2)
          · exact Or.inl (h2e ▸ h1)
        · rcases h2 with h2 | ⟨h2e, h2r⟩
          · exact Or.inl (h1e ▸ h2)
          · exact Or.inr ⟨h1e.trans h2e, ih bs cs h1r h2r⟩

theorem strLe_total (a b : String) : strLe a b = true ∨ strLe b a = true :=
  charListLe_total a.data b.data

theorem strLe_trans {a b c : String} (h1 : strLe a b = true) (h2 : strLe b c = true) :
    strLe a c = true :=
  charListLe_trans a.data b.data c.data h1 h2

instance : IsTotal Reading recvDesc :=
  ⟨fun a b => strLe_total b.received_at a.received_at⟩

instance : IsTrans Reading recvDesc :=
  ⟨fun _ _ _ h1 h2 => strLe_trans h2 h1⟩

/-! ### Validator characterization lemmas -/

/-- Acceptance characterization of a bounded range check: a present value
passes exactly when it lies in the inclusive range under IEEE comparison, or
it is NaN (both comparisons false, so the check never fires). -/
theorem checkRange_accepts (field : String) (lo hi : ℚ) (x : FloatVal) :
    checkRange field lo hi (.num x) = .ok (some x) ↔
      ((x.geQ lo && x.leQ hi) = true ∨ x = .nan) := by
  cases x with
  | finite q =>
    simp only [checkRange, FloatVal.ltQ, FloatVal.gtQ, FloatVal.geQ, FloatVal.leQ]
    split_ifs with h
    · rw [Bool.or_eq_true, decide_eq_true_eq, decide_eq_true_eq] at h
      refine iff_of_false (by simp) ?_
      rintro (hin | hnan)
      · rw [Bool.and_eq_true, decide_eq_true_eq, decide_eq_true_eq] at hin
        rcases h with h | h
        · linarith [hin.1]
        · linarith [hin.2]
      · cases hnan
    · rw [Bool.or_eq_true, decide_eq_true_eq, decide_eq_true_eq] at h
      push_neg at h
      refine iff_of_true rfl (Or.inl ?_)
      rw [Bool.and_eq_true, decide_eq_true_eq, decide_eq_true_eq]
      exact ⟨h.1, h.2⟩
  | posInf => simp [checkRange, FloatVal.ltQ, FloatVal.gtQ, FloatVal.geQ, FloatVal.leQ]
  | negInf => simp [checkRange, FloatVal.ltQ, FloatVal.gtQ, FloatVal.geQ, FloatVal.leQ]
  | nan => simp [checkRange, FloatVal.ltQ, FloatVal.gtQ, FloatVal.geQ, FloatVal.leQ]

/-- Acceptance characterization of a lower-bound-only check: a present value
passes exactly when it is at least the bound under IEEE comparison (which
admits +inf), or it is NaN. -/
theorem checkMin_accepts (field : String) (lo : ℚ) (x : FloatVal) :
    checkMin field lo (.num x) = .ok (some x) ↔ (x.geQ lo = true ∨ x = .nan) := by
  cases x with
  | finite q =>
    simp only [checkMin, FloatVal.ltQ, FloatVal.geQ]
    split_ifs with h
    · rw [decide_eq_true_eq] at h
      refine iff_of_false (by simp) ?_
      rintro (hin | hnan)
      · rw [decide_eq_true_eq] at hin
        linarith
      · cases hnan
    · rw [decide_eq_true_eq] at h
      push_neg at h
      refine iff_of_true rfl (Or.inl ?_)
      rw [decide_eq_true_eq]
      exact h
  | posInf => simp [checkMin, FloatVal.ltQ, FloatVal.geQ]
  | negInf => simp [checkMin, FloatVal.ltQ, FloatVal.geQ]
  | nan => simp [checkMin, FloatVal.ltQ, FloatVal.geQ]

/-- The validation block reports exactly the error of the first failing field
in the fixed check order. -/
theorem validateNumbers_head_error (p : Params) (e : FieldErr)
    (h : (fieldErrors p).head? = some e) : validateNumbers p = Except.error e := by
  unfold fieldErrors at h
  unfold validateNumbers
  rcases h1 : checkVoltage p.v with e1 | v1 <;> rw [h1] at h <;> simp only [errOf] at h
  · simp only [List.reduceOption_cons_of_some, List.head?_cons, Option.some.injEq] at h
    rw [← h]
  · rw [List.reduceOption_cons_of_none] at h
    rcases h2 : checkCurrent p.c with e2 | v2 <;> rw [h2] at h <;> simp only [errOf] at h
    · simp only [List.reduceOption_cons_of_some, List.head?_cons, Option.some.injEq] at h
      rw [← h]
    · rw [List.reduceOption_cons_of_none] at h
      rcases h3 : checkPowerFactor p.pf with e3 | v3 <;> rw [h3] at h <;>
        simp only [errOf] at h
      · simp only [List.reduceOption_cons_of_some, List.head?_cons, Option.some.injEq] at h
        rw [← h]
      · rw [List.reduceOption_cons_of_none] at h
        rcases h4 : checkLoad p.l with e4 | v4 <;> rw [h4] at h <;> simp only [errOf] at h
        · simp only [List.reduceOption_cons_of_some, List.head?_cons, Option.some.injEq] at h
          rw [← h]
        · rw [List.reduceOption_cons_of_none] at h
          rcases h5 : checkKwh p.k with e5 | v5 <;> rw [h5] at h <;> simp only [errOf] at h
          · simp only [List.reduceOption_cons_of_some, List.head?_cons,
              Option.some.injEq] at h
            rw [← h]
          · rw [List.reduceOption_cons_of_none] at h
            rcases h6 : checkFrequency p.f with e6 | v6 <;> rw [h6] at h <;>
              simp only [errOf] at h
            · simp only [List.reduceOption_cons_of_some, List.head?_cons,
                Option.some.injEq] at h
              rw [← h]
            · rw [List.reduceOption_cons_of_none] at h
              rcases h7 : checkRetry p.r with e7 | v7 <;> rw [h7] at h <;>
                simp only [errOf] at h
              · simp only [List.reduceOption_cons_of_some, List.head?_cons,
                  Option.some.injEq] at h
                rw [← h]
              · simp at h

/-! ### Concrete fixtures -/

/-- Boot-notification submission: the source contains "Boot" and no numeric
field is supplied. -/
def bootParams : Params :=
  ⟨.missing, .missing, .missing, .missing, .missing, .missing,
   some "26-07-2025 13:05:30", .missing, "ESP32-Boot"⟩

/-- Store with an existing device_status row recording three boots and two
errors for source "esp32". -/
def dbWithBoots : DB :=
  ⟨[], 1, [⟨"esp32", "2025-07-26T10:00:00", "online", 3, 2⟩]⟩

/-- Reading received on 2025-07-01. -/
def rJul1 : Reading :=
  ⟨1, some (.finite 230), some (.finite 8), none, none, some (.finite 100), none, none, 0, "esp32",
   "2025-07-01T10:00:00"⟩

/-- Reading received on 2025-07-02. -/
def rJul2 : Reading :=
  ⟨2, some (.finite 231), some (.finite 9), none, none, some (.finite 200), none, none, 0, "esp32",
   "2025-07-02T10:00:00"⟩

/-- Store holding the two July readings. -/
def dbJuly : DB := ⟨[rJul1, rJul2], 3, []⟩

/-- Non-boot submission with v absent and k present but empty. -/
def missingParams : Params :=
  ⟨.missing, .num (.finite 8), .missing, .missing, .empty, .missing, none, .missing,
   "esp32"⟩

/-- Non-boot submission with all required fields present but voltage 600 out of
its range. -/
def invalidParams : Params :=
  ⟨.num (.finite 600), .num (.finite 8), .missing, .missing, .num (.finite 1250),
   .missing, none, .missing, "esp32"⟩

/-- Submission with two invalid present numeric fields: voltage unparseable and
current out of range (required fields all present). -/
def doubleBadParams : Params :=
  ⟨.junk "abc", .num (.finite 2000), .missing, .missing, .num (.finite 10), .missing,
   none, .missing, "esp32"⟩

/-! ### Claim C1 -/

/-- C1 counterexample: the boot handler (app.py lines 64-75) replies BOOT_ACK
and returns before any store call, so after a boot submission on a fresh store
the claimed DeviceStatus row for the source does not exist at all — no
boot_count was incremented, contradicting the claim's device-status clause. -/
theorem c1_counterexample :
    (receive_meter_data bootParams "2025-07-26T13:05:31" emptyDB).1 = SubmitResult.bootAck ∧
    (receive_meter_data bootParams "2025-07-26T13:05:31" emptyDB).2 = emptyDB ∧
    lookupStatus (receive_meter_data bootParams "2025-07-26T13:05:31" emptyDB).2
      "ESP32-Boot" = none :=
  ⟨rfl, rfl, rfl⟩

/-- C1 (amended): a submission whose source contains the substring "boot" in
any letter case short-circuits before the required-field check and is
acknowledged with the distinct boot outcome without requiring v/c/k; no
Reading row is inserted and the store — including the device_status table —
is left completely untouched, so no boot_count increment, last_seen refresh or
status change happens. -/
theorem c1_boot_ack_no_store_write (p : Params) (now : String) (db : DB)
    (hb : containsBoot p.s = true) :
    receive_meter_data p now db = (SubmitResult.bootAck, db) := by
  simp [receive_meter_data, hb]

theorem c1_boot_ack_no_store_write_witness :
    containsBoot bootParams.s = true ∧
    receive_meter_data bootParams "2025-07-26T13:05:31" emptyDB =
      (SubmitResult.bootAck, emptyDB) :=
  ⟨rfl, c1_boot_ack_no_store_write bootParams "2025-07-26T13:05:31" emptyDB rfl⟩

/-! ### Claim C2 -/

/-- C2: evaluating the code at the failing input. The device_status upsert
inside insert_reading (database.py lines 113-118) omits boot_count from its
INSERT OR REPLACE column list, so the replacing row falls back to the schema
DEFAULT 0: a successful non-boot reading insert for "esp32" resets that
source's boot_count from 3 to 0 — the count decreases — while error_count is
preserved by the COALESCE subquery. -/
theorem c2_insert_resets_boot_count :
    lookupStatus dbWithBoots "esp32" =
      some ⟨"esp32", "2025-07-26T10:00:00", "online", 3, 2⟩ ∧
    lookupStatus (insert_reading dbWithBoots (some (.finite 230)) (some (.finite 8)) none
        none (some (.finite 1250))
        none none 0 "esp32" "2025-07-26T11:00:00").2 "esp32" =
      some ⟨"esp32", "2025-07-26T11:00:00", "online", 0, 2⟩ :=
  ⟨rfl, rfl⟩

/-! ### Claim C3 -/

/-- C3 counterexample: with an underlying I/O failure injected, get_statistics
answers with the empty dictionary as an ordinary success value and
update_device_status completes as a silent no-op success — neither surfaces a
storage error to its caller. -/
theorem c3_counterexample :
    get_statistics_op emptyDB "2025-07-25T11:00:00" 4096 (some "disk I/O error") =
      Except.ok none ∧
    update_device_status_op dbWithBoots "esp32" "offline" false false
      "2025-07-26T12:00:00" (some "disk I/O error") = Except.ok dbWithBoots :=
  ⟨rfl, rfl⟩

/-- C3 (amended): insert_reading, get_readings, get_readings_by_date_range,
cleanup_old_data and backup_database all re-raise, surfacing an underlying
failure with its message to the caller; but get_statistics converts any
failure into the ordinary empty statistics result and update_device_status
swallows it into a silent no-op success with the store unchanged. -/
theorem c3_error_surfacing (db : DB) (msg cutoff now source status sd ed : String)
    (db_size : ℕ) (ib ie : Bool) (limit : ℤ) (osrc osd oed : Option String) :
    insert_reading_op db none none none none none none none 0 source now (some msg) =
      Except.error msg ∧
    get_readings_op db osrc limit osd oed (some msg) = Except.error msg ∧
    get_readings_by_date_range_op db sd ed osrc (some msg) = Except.error msg ∧
    cleanup_old_data_op db cutoff (some msg) = Except.error msg ∧
    backup_database_op db (some msg) = Except.error msg ∧
    get_statistics_op db cutoff db_size (some msg) = Except.ok none ∧
    update_device_status_op db source status ib ie now (some msg) = Except.ok db :=
  ⟨rfl, rfl, rfl, rfl, rfl, rfl, rfl⟩

/-! ### Claim C4 -/

/-- C4 counterexample: on a two-reading store the export endpoint returns the
readings in descending received_at order (it routes through get_readings),
while the claim requires the ascending order that only the unused
get_readings_by_date_range produces. -/
theorem c4_counterexample :
    export_data dbJuly none (some "2025-07-01") (some "2025-07-31") = [rJul2, rJul1] ∧
    get_readings_by_date_range dbJuly "2025-07-01" "2025-07-31" none = [rJul1, rJul2] ∧
    ([rJul2, rJul1] : List Reading) ≠ [rJul1, rJul2] :=
  ⟨rfl, rfl, by decide⟩

/-- C4 (amended): the export endpoint fetches its rows through get_readings, so
its result is ordered descending by received_at and capped at the default
limit of 1000 rows; when at most 1000 stored readings match, it consists of
exactly the stored readings whose received_at date lies in the inclusive
start/end range and that pass the source filter. -/
theorem c4_export_descending_capped (db : DB) (source start_date end_date : Option String)
    (hcap : (db.readings.filter (matchesFilters source start_date end_date)).length ≤ 1000) :
    export_data db source start_date end_date =
      get_readings db source 1000 start_date end_date ∧
    List.Sorted recvDesc (export_data db source start_date end_date) ∧
    ∀ r, r ∈ export_data db source start_date end_date ↔
      (r ∈ db.readings ∧ matchesFilters source start_date end_date r = true) := by
  refine ⟨rfl, ?_, ?_⟩
  · unfold export_data get_readings sqlLimit
    rw [if_neg (by omega)]
    exact List.Pairwise.sublist (List.take_sublist _ _)
      (List.sorted_insertionSort recvDesc _)
  · intro r
    unfold export_data get_readings sqlLimit
    rw [if_neg (by omega)]
    have hlen : (List.insertionSort recvDesc
        (db.readings.filter (matchesFilters source start_date end_date))).length ≤
        (1000 : ℤ).toNat := by
      rw [(List.perm_insertionSort recvDesc _).length_eq]
      exact hcap
    rw [List.take_of_length_le hlen]
    rw [List.mem_insertionSort, List.mem_filter]

theorem c4_export_descending_capped_witness :
    (dbJuly.readings.filter
      (matchesFilters none (some "2025-07-01") (some "2025-07-31"))).length ≤ 1000 ∧
    (export_data dbJuly none (some "2025-07-01") (some "2025-07-31") =
        get_readings dbJuly none 1000 (some "2025-07-01") (some "2025-07-31") ∧
      List.Sorted recvDesc (export_data dbJuly none (some "2025-07-01") (some "2025-07-31")) ∧
      ∀ r, r ∈ export_data dbJuly none (some "2025-07-01") (some "2025-07-31") ↔
        (r ∈ dbJuly.readings ∧
          matchesFilters none (some "2025-07-01") (some "2025-07-31") r = true)) :=
  ⟨by decide, c4_export_descending_capped dbJuly none (some "2025-07-01")
    (some "2025-07-31") (by decide)⟩

/-! ### Claim C5 -/

/-- C5: a non-boot submission with at least one required field absent or empty
is rejected with a message listing the missing required fields, and that list
contains "v (voltage)", "c (current)", "k (kWh)" each exactly when the
corresponding parameter is missing — every missing field is named, not only
the first. -/
theorem c5_missing_fields_enumerated (p : Params) (now : String) (db : DB)
    (hb : containsBoot p.s = false) (hm : missingFieldsOf p ≠ []) :
    (receive_meter_data p now db).1 = SubmitResult.missingFields (missingFieldsOf p) ∧
    ("v (voltage)" ∈ missingFieldsOf p ↔ p.v.falsy = true) ∧
    ("c (current)" ∈ missingFieldsOf p ↔ p.c.falsy = true) ∧
    ("k (kWh)" ∈ missingFieldsOf p ↔ p.k.falsy = true) := by
  refine ⟨by simp [receive_meter_data, hb, hm], ?_, ?_, ?_⟩
  all_goals
    cases hv : p.v.falsy <;> cases hc : p.c.falsy <;> cases hk : p.k.falsy <;>
      simp [missingFieldsOf, hv, hc, hk]

theorem c5_missing_fields_enumerated_witness :
    containsBoot missingParams.s = false ∧ missingFieldsOf missingParams ≠ [] ∧
    ((receive_meter_data missingParams "2025-07-26T13:05:31" emptyDB).1 =
        SubmitResult.missingFields (missingFieldsOf missingParams) ∧
      ("v (voltage)" ∈ missingFieldsOf missingParams ↔ missingParams.v.falsy = true) ∧
      ("c (current)" ∈ missingFieldsOf missingParams ↔ missingParams.c.falsy = true) ∧
      ("k (kWh)" ∈ missingFieldsOf missingParams ↔ missingParams.k.falsy = true)) :=
  ⟨rfl, by decide,
   c5_missing_fields_enumerated missingParams "2025-07-26T13:05:31" emptyDB rfl (by decide)⟩

/-! ### Claim C6 -/

/-- C6 counterexample: Python `float("nan")` parses, and both range
comparisons on NaN are false, so a present NaN voltage is accepted by the
validator although it does not lie in the inclusive range [0, 500]: under
IEEE comparison NaN satisfies neither 0 ≤ v nor v ≤ 500. This refutes
"accepted iff it lies in its inclusive range" for present values. -/
theorem c6_counterexample :
    checkVoltage (.num FloatVal.nan) = .ok (some FloatVal.nan) ∧
    (FloatVal.nan.geQ 0 && FloatVal.nan.leQ 500) = false :=
  ⟨rfl, rfl⟩

/-- C6 (amended): a present numeric field value is accepted exactly when it
lies in its inclusive range under IEEE comparison — voltage in [0, 500],
current in [0, 1000], power factor in [0, 1], frequency in [45, 65], load_kw
and kwh at least 0, with both boundary endpoints accepted and values just
outside rejected — OR it is NaN, which every check accepts because both IEEE
comparisons against the bounds are false. In particular +inf is rejected by
the four bounded ranges but accepted by the two lower-bound-only checks, and
-inf is rejected by every check. -/
theorem c6_ranges_ieee_nan_accepted (x : FloatVal) :
    (checkVoltage (.num x) = .ok (some x) ↔ ((x.geQ 0 && x.leQ 500) = true ∨ x = .nan)) ∧
    (checkCurrent (.num x) = .ok (some x) ↔ ((x.geQ 0 && x.leQ 1000) = true ∨ x = .nan)) ∧
    (checkPowerFactor (.num x) = .ok (some x) ↔ ((x.geQ 0 && x.leQ 1) = true ∨ x = .nan)) ∧
    (checkFrequency (.num x) = .ok (some x) ↔ ((x.geQ 45 && x.leQ 65) = true ∨ x = .nan)) ∧
    (checkLoad (.num x) = .ok (some x) ↔ (x.geQ 0 = true ∨ x = .nan)) ∧
    (checkKwh (.num x) = .ok (some x) ↔ (x.geQ 0 = true ∨ x = .nan)) :=
  ⟨checkRange_accepts _ _ _ _, checkRange_accepts _ _ _ _, checkRange_accepts _ _ _ _,
   checkRange_accepts _ _ _ _, checkMin_accepts _ _ _, checkMin_accepts _ _ _⟩

/-! ### Claim C7 -/

/-- C7: whenever a submission is rejected by validation — missing required
field, unparseable numeric text or out-of-range value — the handler returns
before any store call, so the persisted state is completely unchanged: no
Reading row is inserted and no DeviceStatus row is created or modified. -/
theorem c7_validation_failure_preserves_store (p : Params) (now : String) (db : DB)
    (h : (receive_meter_data p now db).1.isRejection = true) :
    (receive_meter_data p now db).2 = db := by
  by_cases hb : containsBoot p.s = true
  · simp [receive_meter_data, hb]
  · by_cases hm : missingFieldsOf p = []
    · rcases hval : validateNumbers p with e | vals
      · simp [receive_meter_data, hb, hm, hval]
      · exfalso
        simp [receive_meter_data, hb, hm, hval, SubmitResult.isRejection] at h
    · simp [receive_meter_data, hb, hm]

theorem c7_validation_failure_preserves_store_witness :
    (receive_meter_data invalidParams "2025-07-26T13:05:31" emptyDB).1.isRejection = true ∧
    (receive_meter_data invalidParams "2025-07-26T13:05:31" emptyDB).2 = emptyDB :=
  ⟨rfl, c7_validation_failure_preserves_store invalidParams "2025-07-26T13:05:31" emptyDB rfl⟩

/-! ### Claim C8 -/

/-- C8 counterexample: get_readings called with the (reachable, caller-chosen)
limit N = -1 returns every row — the SQLite LIMIT clause treats a negative
limit as no cap — so on a two-reading store the result has 2 rows, which is
more than N. -/
theorem c8_counterexample :
    get_readings dbJuly none (-1) none none = [rJul2, rJul1] ∧
    ¬ (((get_readings dbJuly none (-1) none none).length : ℤ) ≤ -1) :=
  ⟨rfl, by decide⟩

/-- C8 (amended): for every non-negative limit N and every combination of date
filters, get_readings returns at most N rows ordered descending by
received_at; a negative limit disables the cap entirely (SQLite LIMIT
semantics), so the bound holds only for N ≥ 0. -/
theorem c8_limit_bound_desc (db : DB) (source start_date end_date : Option String)
    (N : ℤ) (hN : 0 ≤ N) :
    ((get_readings db source N start_date end_date).length : ℤ) ≤ N ∧
    List.Sorted recvDesc (get_readings db source N start_date end_date) := by
  unfold get_readings sqlLimit
  rw [if_neg (by omega)]
  constructor
  · have h1 : (List.take N.toNat (List.insertionSort recvDesc
        (db.readings.filter (matchesFilters source start_date end_date)))).length ≤
        N.toNat := by
      rw [List.length_take]
      exact Nat.min_le_left _ _
    omega
  · exact List.Pairwise.sublist (List.take_sublist _ _)
      (List.sorted_insertionSort recvDesc _)

theorem c8_limit_bound_desc_witness :
    (0 : ℤ) ≤ 1 ∧
    (((get_readings dbJuly none 1 none none).length : ℤ) ≤ 1 ∧
      List.Sorted recvDesc (get_readings dbJuly none 1 none none)) :=
  ⟨by decide, c8_limit_bound_desc dbJuly none none none 1 (by decide)⟩

/-! ### Claim C9 -/

/-- C9: for every limit and every combination of date filters, get_readings
called with the sentinel source "All" returns exactly the same sequence of
readings as the same call with no source filter. -/
theorem c9_source_all_sentinel (db : DB) (limit : ℤ) (start_date end_date : Option String) :
    get_readings db (some "All") limit start_date end_date =
      get_readings db none limit start_date end_date := by
  have hfun : matchesFilters (some "All") start_date end_date =
      matchesFilters none start_date end_date := by
    funext r
    simp [matchesFilters, sourceFilter]
  unfold get_readings
  rw [hfun]

/-! ### Claim C10 -/

/-- C10: for a non-boot submission with all required fields present in which
two or more present numeric fields are invalid (unparseable or out of range),
the rejection carries the error of the first failing field in the fixed check
order voltage, current, power_factor, load_kw, kwh, frequency, retry_count —
a single ValueError naming only that field, not an enumeration of all failing
fields. -/
theorem c10_first_failing_field_reported (p : Params) (now : String) (db : DB)
    (hb : containsBoot p.s = false) (hm : missingFieldsOf p = [])
    (h : 2 ≤ (fieldErrors p).length) :
    ∃ e, (fieldErrors p).head? = some e ∧
      (receive_meter_data p now db).1 = SubmitResult.invalidData e := by
  rcases hfe : fieldErrors p with _ | ⟨e, rest⟩
  · rw [hfe] at h
    simp at h
  · have hv : validateNumbers p = Except.error e :=
      validateNumbers_head_error p e (by simp [hfe])
    refine ⟨e, by simp, ?_⟩
    simp [receive_meter_data, hb, hm, hv]

theorem c10_first_failing_field_reported_witness :
    containsBoot doubleBadParams.s = false ∧ missingFieldsOf doubleBadParams = [] ∧
    2 ≤ (fieldErrors doubleBadParams).length ∧
    (∃ e, (fieldErrors doubleBadParams).head? = some e ∧
      (receive_meter_data doubleBadParams "2025-07-26T13:05:31" emptyDB).1 =
        SubmitResult.invalidData e) :=
  ⟨rfl, rfl, by decide,
   c10_first_failing_field_reported doubleBadParams "2025-07-26T13:05:31" emptyDB
     rfl rfl (by decide)⟩

end MeterBackend
